import Mathlib

/-!
Verification development for the ARS-MATHICA fractal visualizer.

The definitions below are shallow embeddings of the core of the
application: the GLSL particle vertex kernel (`vertexShader` in
src/unnamed/part_000), the gesture classifier and per-frame control loop
of the interactive renderer (src/unnamed/part_001 and
src/components/FractalVis.tsx), and the cooldown gating of one-shot
gestures.  Floating-point arithmetic of the source is modelled over the
exact reals; operations that are undefined in GLSL/IEEE for some inputs
(log2 of a non-positive number, normalize of the zero vector, division
by zero, pow with negative base) are modelled with `Option ℝ`, where
`none` stands for a non-finite result (NaN or an infinity).  The
cooldown simulation, whose constants are all rational, is modelled over
`ℚ` so that it can be evaluated by the kernel.
-/

namespace AM

/-! ### Cooldown gating (src/unnamed/part_001 lines 364-379, src/components/FractalVis.tsx lines 461-480)

One frame of the clap cooldown logic:

    if (g.isClapping && phys.clapCooldown <= 0) { ...fire...; phys.clapCooldown = duration; }
    if (phys.clapCooldown > 0) phys.clapCooldown -= dt;

`duration` is 1.0 s in part_001 and 0.8 s in FractalVis.tsx.  The
function returns whether the action fired this frame together with the
updated timer. -/
def clapFrame (duration : ℚ) (clapping : Bool) (cd dt : ℚ) : Bool × ℚ :=
  let fired := clapping ∧ cd ≤ 0
  let cd1 := if fired then duration else cd
  (decide fired, if 0 < cd1 then cd1 - dt else cd1)

/-- Simulation of `n` frames at dt = 1/60 s with the clap boolean held
true throughout, starting from a zero cooldown timer; returns the number
of times the clap action fired together with the final timer value. -/
def clapSim (duration : ℚ) : ℕ → ℕ × ℚ
  | 0 => (0, 0)
  | n + 1 =>
    let s := clapSim duration n
    let r := clapFrame duration true s.2 (1/60)
    (s.1 + (if r.1 then 1 else 0), r.2)

/-- The same machine with the timer counted in integer ticks of 1/60 s
(dt is one tick).  Used only as an executable mirror of `clapFrame`;
`clapSim_eq_ticks` proves the two agree. -/
def clapFrameTicks (durT : ℤ) (clapping : Bool) (cd : ℤ) : Bool × ℤ :=
  let fired := clapping ∧ cd ≤ 0
  let cd1 := if fired then durT else cd
  (decide fired, if 0 < cd1 then cd1 - 1 else cd1)

def clapSimTicks (durT : ℤ) : ℕ → ℕ × ℤ
  | 0 => (0, 0)
  | n + 1 =>
    let s := clapSimTicks durT n
    let r := clapFrameTicks durT true s.2
    (s.1 + (if r.1 then 1 else 0), r.2)

/-! ### Frame-rate independent damping (src/unnamed/part_001 lines 42-44, src/components/FractalVis.tsx lines 31-32)

    const damp = (current, target, lambda, dt) =>
      THREE.MathUtils.lerp(current, target, 1 - Math.exp(-lambda * dt));

with `THREE.MathUtils.lerp(x, y, t) = x + (y - x) * t`. -/

noncomputable def lerp (x y t : ℝ) : ℝ := x + (y - x) * t

noncomputable def damp (current target lambda dt : ℝ) : ℝ :=
  lerp current target (1 - Real.exp (-lambda * dt))

/-- Iterating the damp update over a list of time steps. -/
noncomputable def dampSteps (target lambda : ℝ) (x0 : ℝ) (ds : List ℝ) : ℝ :=
  ds.foldl (fun x d => damp x target lambda d) x0

/-! ### Navigation zoom operations (src/unnamed/part_001)

`handleWheel` is lines 169-181 (wheel zoom with a guarded commit),
`pinchZoom` is the pinch-to-zoom update of line 423-424,
`punchZoom` the punch zoom pulse of line 383, `flyThrottle` the
immersive-fly fist throttle of line 432, and `diveZoom` the
MANDELBROT_DIVE preset zoom `Math.pow(1.8, animPhase)` of line 455. -/

open scoped Classical

/-- JavaScript `Math.sign` on the reals. -/
noncomputable def rsign (x : ℝ) : ℝ := if 0 < x then 1 else if x < 0 then -1 else 0

noncomputable def handleWheel (zoom deltaY : ℝ) : ℝ :=
  let delta := -(rsign deltaY) * 0.15
  let newZoom := zoom * (1 + delta)
  if 0.0001 < newZoom ∧ newZoom < 100000 then newZoom else zoom

noncomputable def pinchZoom (zoom tipY lastY : ℝ) : ℝ :=
  zoom * (1 + (tipY - lastY) * 1.5)

noncomputable def punchZoom (zoom dt : ℝ) : ℝ := zoom * (1 + dt * 3)

noncomputable def flyThrottle (zoom dt : ℝ) : ℝ := zoom * (1 + dt * 0.8)

noncomputable def diveZoom (phase : ℝ) : ℝ := (1.8 : ℝ) ^ phase

/-- The navigation-zoom invariant claimed by the spec: strictly positive
and bounded (the bound used by the wheel handler of part_001). -/
def zoomInv (z : ℝ) : Prop := 0 < z ∧ z < 100000

/-! ### Color palette (src/unnamed/part_000 lines 138-183, `getPalette`)

GLSL `pow` on a non-negative base with a whole-number exponent agrees
with the monoid power used here; the pulse is always in [0,1] so every
`pow` in `getPalette` has a non-negative base. -/

abbrev V3 := ℝ × ℝ × ℝ

/-- GLSL `mix(x, y, a) = x·(1−a) + y·a`. -/
noncomputable def mix (x y a : ℝ) : ℝ := x + (y - x) * a

noncomputable def mix3 (a b : V3) (s : ℝ) : V3 :=
  (mix a.1 b.1 s, mix a.2.1 b.2.1 s, mix a.2.2 b.2.2 s)

/-- The pulse computed at the top of `getPalette`: the shader assigns
`0.5 + 0.5*sin(t*3 + uTime*0.1)` and overwrites it with
`0.5 + 0.5*sin(t*3)` when `uVisualMode > 0.5`. -/
noncomputable def palettePulse (uTime uVisualMode t : ℝ) : ℝ :=
  if 0.5 < uVisualMode then 0.5 + 0.5 * Real.sin (t * 3)
  else 0.5 + 0.5 * Real.sin (t * 3 + uTime * 0.1)

noncomputable def getPalette (uTime uVisualMode : ℝ) (t mode : ℝ) : V3 :=
  let pulse := palettePulse uTime uVisualMode t
  if mode < 0.5 then
    mix3 (mix3 (0.02, 0.01, 0.10) (0.15, 0.05, 0.25) pulse)
      (0.30, 0.20, 0.50) (pulse ^ 4 * 0.4)
  else if mode < 1.5 then
    mix3 (mix3 (0.1, 0, 0) (0.6, 0.1, 0) pulse) (1, 0.7, 0.1) (pulse ^ 3)
  else if mode < 2.5 then
    mix3 (mix3 (0, 0.1, 0.2) (0, 0.4, 0.6) pulse) (0.6, 0.9, 1) (pulse ^ 5 * 0.5)
  else if mode < 3.5 then
    mix3 (mix3 (0, 0.1, 0) (0.1, 0.4, 0.1) pulse) (0.4, 1, 0.4) (pulse ^ 8 * 0.8)
  else
    mix3 (mix3 (0.15, 0, 0.3) (0, 0.2, 0.5) pulse) (1, 0, 0.8) (pulse ^ 2 * 0.5)

/-- Membership in the unit interval, the claimed color-channel range. -/
def inUnit (x : ℝ) : Prop := 0 ≤ x ∧ x ≤ 1

def inUnit3 (v : V3) : Prop := inUnit v.1 ∧ inUnit v.2.1 ∧ inUnit v.2.2

/-! ### Gesture classifier (src/unnamed/part_001 lines 554-656 `onResults`,
src/components/FractalVis.tsx lines 610-657, src/unnamed/part_002 lines 299-304)

A hand is 21 landmarks with normalized 2-D coordinates and an
approximate depth.  `Gest` is the `HandGestures` record of part_001 and
`Phys` the classifier-relevant part of its `physicsRef` record. -/

structure Landmark where
  x : ℝ
  y : ℝ
  z : ℝ

abbrev Hand := Fin 21 → Landmark

/-- Landmark distance (part_001 line 58):
`Math.sqrt((p1.x-p2.x)^2 + (p1.y-p2.y)^2)`. -/
noncomputable def dist (p1 p2 : Landmark) : ℝ :=
  Real.sqrt ((p1.x - p2.x) ^ 2 + (p1.y - p2.y) ^ 2)

structure Gest where
  indexTipX : ℝ
  indexTipY : ℝ
  indexTipZ : ℝ
  wristPosX : ℝ
  wristPosY : ℝ
  wristPosZ : ℝ
  isPinching : Bool
  isPalmOpen : Bool
  isFist : Bool
  isPointing : Bool
  isVictory : Bool
  isSnapping : Bool
  isWaving : Bool
  isClapping : Bool
  isPunching : Bool
  isTwoHandSmash : Bool
  handsDistance : ℝ
  handsCount : ℕ
  gestureName : String
  deriving Inhabited

structure Phys where
  prevWristZ : ℝ
  punchVelocity : ℝ
  clapCooldown : ℝ
  snapCooldown : ℝ
  lastHandPosX : ℝ
  lastHandPosY : ℝ
  lastHandPosZ : ℝ
  wasFist : Bool
  wasPunching : Bool
  wasVictory : Bool
  wasSmash : Bool
  deriving Inhabited

/-- Coordinate mapping (0..1) → (−2..2) of part_001 lines 564-565. -/
noncomputable def mapX (x : ℝ) : ℝ := (x - 0.5) * 4

noncomputable def mapY (y : ℝ) : ℝ := (y - 0.5) * (-4)

/-- Mean fingertip-to-wrist distance over tips 8, 12, 16, 20. -/
noncomputable def avgTipDist (h : Hand) : ℝ :=
  (dist (h 8) (h 0) + dist (h 12) (h 0) + dist (h 16) (h 0) +
    dist (h 20) (h 0)) / 4

/-- Display-label priority chain of part_001 lines 643-651. -/
def gestureLabel (g : Gest) : String :=
  if g.isClapping then "CLAP (MODE SWITCH)"
  else if g.isTwoHandSmash then "SMASH (RESET)"
  else if g.isSnapping then "SNAP (COLOR)"
  else if g.isVictory then "VICTORY (FREEZE)"
  else if g.isPunching then "PUNCH (ZOOM)"
  else if g.isFist then "FIST (GRAB)"
  else if g.isPinching then "PINCH (DRAG)"
  else if g.isPalmOpen then "PALM (HOVER)"
  else "TRACKING..."

/-- The tracking callback of part_001 (lines 554-656), as a function of
the landmark frame, the previous gesture state and the previous physics
state. -/
noncomputable def onResults (lms : List Hand) (g0 : Gest) (ph0 : Phys) :
    Gest × Phys :=
  match lms with
  | [] => ({ g0 with handsCount := 0, gestureName := "NO HANDS" }, ph0)
  | h1 :: rest =>
    let isPinching := decide (dist (h1 4) (h1 8) < 0.05)
    let avg := avgTipDist h1
    let isFist := decide (avg < 0.25)
    let isPalmOpen := !isFist && !isPinching && decide (0.4 < avg)
    let isVictory := decide (0.4 < dist (h1 8) (h1 0)) &&
      decide (0.4 < dist (h1 12) (h1 0)) &&
      decide (dist (h1 16) (h1 0) < 0.3) && decide (dist (h1 20) (h1 0) < 0.3)
    let deltaZ := (h1 0).z - ph0.prevWristZ
    let punchVelocity := |deltaZ|
    let isPunching := decide (0.1 < punchVelocity) && isFist
    let clapSmash : Bool × Bool × ℝ :=
      match rest with
      | [h2] =>
        let handDist := dist (h1 0) (h2 0)
        let isH2Fist := decide ((dist (h2 8) (h2 0) + dist (h2 12) (h2 0) +
          dist (h2 16) (h2 0) + dist (h2 20) (h2 0)) / 4 < 0.25)
        (decide (handDist < 0.1),
          isFist && isH2Fist && decide (handDist < 0.15), handDist)
      | _ => (false, false, g0.handsDistance)
    let isSnapping := decide (dist (h1 12) (h1 4) < 0.04) &&
      decide (0.4 < dist (h1 8) (h1 0))
    let g1 : Gest := { g0 with
      handsCount := lms.length
      indexTipX := mapX (h1 8).x
      indexTipY := mapY (h1 8).y
      indexTipZ := (h1 8).z
      wristPosX := mapX (h1 0).x
      wristPosY := mapY (h1 0).y
      wristPosZ := (h1 0).z
      isPinching := isPinching
      isFist := isFist
      isPalmOpen := isPalmOpen
      isVictory := isVictory
      isPunching := isPunching
      isClapping := clapSmash.1
      isTwoHandSmash := clapSmash.2.1
      handsDistance := clapSmash.2.2
      isSnapping := isSnapping }
    ({ g1 with gestureName := gestureLabel g1 },
      { ph0 with prevWristZ := (h1 0).z, punchVelocity := punchVelocity })

/-- The reduced tracking callback of src/components/FractalVis.tsx
(lines 610-657): fewer gestures, no wrist/punch/two-hand updates. -/
noncomputable def onResultsTsx (lms : List Hand) (g0 : Gest) : Gest :=
  match lms with
  | [] => { g0 with handsCount := 0, gestureName := "NO HANDS" }
  | h1 :: _ =>
    let isPinching := decide (dist (h1 4) (h1 8) < 0.05)
    let avg := avgTipDist h1
    let isFist := decide (avg < 0.25)
    let isPalmOpen := !isFist && !isPinching && decide (0.4 < avg)
    let isVictory := decide (0.4 < dist (h1 12) (h1 0)) && decide (avg < 0.3)
    let isSnapping := decide (dist (h1 12) (h1 4) < 0.04)
    let g1 : Gest := { g0 with
      handsCount := lms.length
      indexTipX := mapX (h1 8).x
      indexTipY := mapY (h1 8).y
      indexTipZ := (h1 8).z
      isPinching := isPinching
      isFist := isFist
      isPalmOpen := isPalmOpen
      isVictory := isVictory
      isSnapping := isSnapping }
    { g1 with gestureName :=
        if g1.isSnapping then "SNAP"
        else if g1.isFist then "FIST"
        else if g1.isPalmOpen then "PALM"
        else if g1.isPinching then "PINCH"
        else "TRACKING..." }

/-- The clap check of src/unnamed/part_002 (lines 299-304): the clap
boolean computed by its `onResults` — the landmark-9 distance test with
two hands, false otherwise. -/
noncomputable def clapCheck002 (lms : List Hand) : Bool :=
  match lms with
  | [h1, h2] => decide (dist (h1 9) (h2 9) < 0.12)
  | _ => false

/-- Attract/repel force-tier selection of part_001 animate lines
498-504: `attract`/`repel` start at 0 and the first matching branch
assigns its tier. -/
noncomputable def forceTier (g : Gest) : ℝ × ℝ :=
  if g.isTwoHandSmash then (0, 10)
  else if g.isFist then (3, 0)
  else if g.isPinching then (1, 0)
  else (0, 0.5)

/-- Concrete witness hands: every landmark of the first hand at
(0.3, 0.5), every landmark of the second at (0.35, 0.5) — two fists
with wrist distance 0.05. -/
noncomputable def wHand1 : Hand := fun _ => ⟨0.3, 0.5, 0⟩

noncomputable def wHand2 : Hand := fun _ => ⟨0.35, 0.5, 0⟩

/-! ### Fractal evaluation kernel (src/unnamed/part_000, `vertexShader`)

`RO`/`V3O` carry the partiality of GLSL float math: `none` marks a
non-finite value (NaN or an infinity), produced by `log`/`log2` on a
non-positive argument, `normalize` of the zero vector, division by zero,
`pow` outside its domain, or `acos`/`atan` at a degenerate point, and
propagated by every arithmetic operation. -/

abbrev RO := Option ℝ

abbrev V3O := RO × RO × RO

noncomputable def glslLog2 (x : ℝ) : RO :=
  if 0 < x then some (Real.logb 2 x) else none

noncomputable def glslLog (x : ℝ) : RO :=
  if 0 < x then some (Real.log x) else none

noncomputable def glslDiv (x y : ℝ) : RO := if y = 0 then none else some (x / y)

/-- GLSL `mod(x, y) = x - y*floor(x/y)`. -/
noncomputable def glslMod (x y : ℝ) : ℝ := x - y * ⌊x / y⌋

/-- GLSL `pow`: defined for a positive base, 0 for a zero base with a
positive exponent, undefined otherwise. -/
noncomputable def glslPow (x y : ℝ) : RO :=
  if 0 < x then some (x ^ y) else if x = 0 ∧ 0 < y then some 0 else none

noncomputable def dot3 (a b : V3) : ℝ :=
  a.1 * b.1 + a.2.1 * b.2.1 + a.2.2 * b.2.2

noncomputable def len3 (v : V3) : ℝ := Real.sqrt (dot3 v v)

noncomputable def add3 (a b : V3) : V3 := (a.1 + b.1, a.2.1 + b.2.1, a.2.2 + b.2.2)

noncomputable def sub3 (a b : V3) : V3 := (a.1 - b.1, a.2.1 - b.2.1, a.2.2 - b.2.2)

noncomputable def smul3 (c : ℝ) (v : V3) : V3 := (c * v.1, c * v.2.1, c * v.2.2)

noncomputable def abs3 (v : V3) : V3 := (|v.1|, |v.2.1|, |v.2.2|)

noncomputable def max3s (v : V3) (c : ℝ) : V3 := (max v.1 c, max v.2.1 c, max v.2.2 c)

noncomputable def mod3s (v : V3) (c : ℝ) : V3 := (glslMod v.1 c, glslMod v.2.1 c, glslMod v.2.2 c)

noncomputable def glslNormalize (v : V3) : Option V3 :=
  if len3 v = 0 then none else some (smul3 (1 / len3 v) v)

/-- 3-D Mandelbulb distance-estimator loop (part_000 lines 30-47).  The
state carries the z vector, dr, and the radius computed at the top of
the most recent pass (the value the final formula reads). -/
noncomputable def bulbGo (uTime power : ℝ) (p : V3) :
    ℕ → V3 → ℝ → ℝ → Option (ℝ × ℝ)
  | 0, _, dr, r => some (r, dr)
  | fuel + 1, z, dr, _ =>
    let r := len3 z
    if 2 < r then some (r, dr)
    else if r = 0 then none
    else if z.1 = 0 ∧ z.2.1 = 0 then none
    else
      match glslPow r (power - 1), glslPow r power with
      | some prm, some pr =>
        let dr2 := prm * power * dr + 1
        let theta := Real.arccos (z.2.2 / r) * power + uTime * 0.1
        let phi := Complex.arg ⟨z.1, z.2.1⟩ * power + uTime * 0.05
        let z2 := add3 (smul3 pr
          (Real.sin theta * Real.cos phi, Real.sin theta * Real.sin phi,
            Real.cos theta)) p
        bulbGo uTime power p fuel z2 dr2 r
      | _, _ => none

noncomputable def DE_Mandelbulb (uTime : ℝ) (p : V3) (power : ℝ) : RO :=
  match bulbGo uTime power p 8 p 1 0 with
  | some (r, dr) => (glslLog r).bind fun lg => glslDiv (0.5 * lg * r) dr
  | none => none

/-- 3-D Menger sponge distance estimator (part_000 lines 50-64). -/
noncomputable def mengerGo (p : V3) : ℕ → ℝ → ℝ → ℝ
  | 0, _, d => d
  | fuel + 1, s, d =>
    let a := sub3 (mod3s (smul3 s p) 2) (1, 1, 1)
    let s2 := s * 3
    let r := abs3 (sub3 (1, 1, 1) (smul3 3 (abs3 a)))
    let da := max r.1 r.2.1
    let db := max r.2.1 r.2.2
    let dc := max r.2.2 r.1
    mengerGo p fuel s2 (max d ((min da (min db dc) - 1) / s2))

noncomputable def DE_MengerSponge (p : V3) : ℝ :=
  mengerGo p 4 1 (len3 (max3s (sub3 (abs3 p) (1, 1, 1)) 0))

/-- 3-D Sierpinski tetrahedron distance estimator (part_000 lines 67-85):
nearest-vertex reflection with first-wins tie-breaking. -/
noncomputable def sierGo : ℕ → V3 → V3
  | 0, p => p
  | fuel + 1, p =>
    let a1 : V3 := (1, 1, 1)
    let a2 : V3 := (-1, -1, 1)
    let a3 : V3 := (1, -1, -1)
    let a4 : V3 := (-1, 1, -1)
    let cd1 : V3 × ℝ := (a1, len3 (sub3 p a1))
    let cd2 := if len3 (sub3 p a2) < cd1.2 then (a2, len3 (sub3 p a2)) else cd1
    let cd3 := if len3 (sub3 p a3) < cd2.2 then (a3, len3 (sub3 p a3)) else cd2
    let cd4 := if len3 (sub3 p a4) < cd3.2 then (a4, len3 (sub3 p a4)) else cd3
    sierGo fuel (sub3 (smul3 2 p) cd4.1)

noncomputable def DE_Sierpinski (p : V3) : ℝ :=
  len3 (sierGo 8 (smul3 1.5 p)) * (2:ℝ) ^ (-(8:ℤ))

/-- Complex square (part_000 line 87). -/
noncomputable def csqr (a : ℝ × ℝ) : ℝ × ℝ :=
  (a.1 * a.1 - a.2 * a.2, 2 * a.1 * a.2)

noncomputable def cadd (a b : ℝ × ℝ) : ℝ × ℝ := (a.1 + b.1, a.2 + b.2)

/-- GLSL `dot(z, z)` for the 2-D iterate. -/
noncomputable def dotSq (z : ℝ × ℝ) : ℝ := z.1 * z.1 + z.2 * z.2

/-- The shader uniforms read by the vertex kernel. -/
structure VUni where
  uTime : ℝ
  uMode : ℝ
  uHandPos : V3
  uAttractStrength : ℝ
  uRepelStrength : ℝ
  uPower : ℝ
  uJuliaC : ℝ × ℝ
  uPinchScale : ℝ
  uExplosion : ℝ
  uChaos : ℝ
  uSnap : ℝ
  uMaxIter : ℝ
  uVisualMode : ℝ
  uColorMode : ℝ
  uZoom : ℝ
  uPan : ℝ × ℝ
  deriving Inhabited

/-- The per-mode recurrence body of `IterateFractal` (part_000 lines
114-125): plain square for modes below 2.5, conjugate-then-square for
the Tricorn window, absolute-value-then-square otherwise. -/
noncomputable def iterStep (mode : ℝ) (c z : ℝ × ℝ) : ℝ × ℝ :=
  if mode < 2.5 then cadd (csqr z) c
  else if |mode - 3| < 0.1 then cadd (csqr (z.1, -z.2)) c
  else cadd (csqr (|z.1|, |z.2|)) c

/-- Seed selection of `IterateFractal` (part_000 lines 97-105): the
Julia window iterates from the point with the uniform constant,
everything else iterates from 0 with the point as constant. -/
noncomputable def iterInit (pos : ℝ × ℝ) (mode : ℝ) (juliaC : ℝ × ℝ) :
    (ℝ × ℝ) × (ℝ × ℝ) :=
  if |mode - 1| < 0.1 then (pos, juliaC) else ((0, 0), pos)

/-- The escape-time loop of `IterateFractal` (part_000 lines 111-131):
the hard internal bound of 100 passes is the fuel, the configured cap is
the real `limit` compared against the float counter `i`, the escape
check `dot(z,z) > 4` runs after the update and before `iter++`. -/
noncomputable def escLoop (stepF : ℝ × ℝ → ℝ × ℝ) (limit : ℝ) :
    ℕ → ℕ → (ℝ × ℝ) → ℝ → (ℝ × ℝ) × ℝ
  | 0, _, z, iter => (z, iter)
  | fuel + 1, i, z, iter =>
    if (i : ℝ) < limit then
      let z2 := stepF z
      if 4 < dotSq z2 then (z2, iter)
      else escLoop stepF limit fuel (i + 1) z2 (iter + 1)
    else (z, iter)

/-- `uMaxIter > 0.0 ? uMaxIter : 20.0` (part_000 line 109). -/
noncomputable def loopLimitOf (uMaxIter : ℝ) : ℝ :=
  if 0 < uMaxIter then uMaxIter else 20

/-- `IterateFractal` (part_000 lines 90-135): returns the final iterate
and the pseudo-depth `(iter − log2(log2(|z|²)) + 4) / loopLimit`, which
is non-finite (`none`) when the orbit never escapes. -/
noncomputable def IterateFractal (pos : ℝ × ℝ) (mode : ℝ) (U : VUni) :
    ℝ × ℝ × RO :=
  let zc := iterInit pos mode U.uJuliaC
  let limit := loopLimitOf U.uMaxIter
  let r := escLoop (iterStep mode zc.2) limit 100 0 zc.1 0
  (r.1.1, r.1.2,
    ((glslLog2 (dotSq r.1)).bind glslLog2).map fun w => (r.2 - w + 4) / limit)

/-- The n-th iterate of the escape-time recurrence from the seed chosen
by `iterInit`. -/
noncomputable def orbit2D (pos : ℝ × ℝ) (mode : ℝ) (juliaC : ℝ × ℝ) (n : ℕ) :
    ℝ × ℝ :=
  (iterStep mode (iterInit pos mode juliaC).2)^[n] (iterInit pos mode juliaC).1

/-! Option-valued vector helpers for the interaction pipeline. -/

noncomputable def o2 (f : ℝ → ℝ → ℝ) (a b : RO) : RO :=
  a.bind fun x => b.map fun y => f x y

noncomputable def pure3 (v : V3) : V3O := (some v.1, some v.2.1, some v.2.2)

def none3 : V3O := (none, none, none)

noncomputable def add3O (a b : V3O) : V3O :=
  (o2 (· + ·) a.1 b.1, o2 (· + ·) a.2.1 b.2.1, o2 (· + ·) a.2.2 b.2.2)

noncomputable def smul3Os (c : ℝ) (v : V3O) : V3O :=
  (v.1.map (c * ·), v.2.1.map (c * ·), v.2.2.map (c * ·))

noncomputable def v3oCase (v : V3O) (f : V3 → V3O) : V3O :=
  match v.1, v.2.1, v.2.2 with
  | some a, some b, some c => f (a, b, c)
  | _, _, _ => none3

noncomputable def len3O (v : V3O) : RO :=
  match v.1, v.2.1, v.2.2 with
  | some a, some b, some c => some (len3 (a, b, c))
  | _, _, _ => none

noncomputable def mix3O (a b : V3O) (s : ℝ) : V3O :=
  (o2 (fun x y => mix x y s) a.1 b.1, o2 (fun x y => mix x y s) a.2.1 b.2.1,
    o2 (fun x y => mix x y s) a.2.2 b.2.2)

/-- NaN-semantics comparison: `none < c` is false. -/
def oLt (a : RO) (c : ℝ) : Prop :=
  match a with
  | some x => x < c
  | none => False

/-- GLSL `smoothstep(e0, e1, x)`. -/
noncomputable def smoothstep (e0 e1 x : ℝ) : ℝ :=
  let t := min (max ((x - e0) / (e1 - e0)) 0) 1
  t * t * (3 - 2 * t)

/-- The 3-D branch of the kernel (part_000 lines 190-204). -/
noncomputable def pos3DCalc (U : VUni) (originalPos : V3) : V3O :=
  if U.uMode < 0.5 then
    match glslNormalize originalPos with
    | some nrm =>
      match DE_Mandelbulb U.uTime (smul3 1.2 nrm) U.uPower with
      | some d => pure3 (smul3 (1.2 - d) nrm)
      | none => none3
    | none => none3
  else if 4.5 < U.uMode ∧ U.uMode < 5.5 then
    match glslNormalize originalPos with
    | some nrm =>
      pure3 (smul3 ((1.5 - DE_MengerSponge (smul3 1.5 originalPos)) * 1.2) nrm)
    | none => none3
  else if 5.5 < U.uMode then
    match glslNormalize originalPos with
    | some nrm =>
      pure3 (smul3 ((1.5 - DE_Sierpinski (smul3 1.5 originalPos)) * 1) nrm)
    | none => none3
  else pure3 originalPos

/-- The pan/zoom transform applied to the flattened seed before the 2-D
iteration (part_000 lines 212-215). -/
noncomputable def navPos2D (U : VUni) (originalPos : V3) : ℝ × ℝ :=
  ((originalPos.1 * 2) / U.uZoom + U.uPan.1,
    (originalPos.2.1 * 2) / U.uZoom + U.uPan.2)

/-- The 2-D branch result `fractalResult` (part_000 line 217).  A zero
zoom makes the navigation division non-finite, which poisons the whole
iteration; this is abstracted to an all-`none` result. -/
noncomputable def fractal2D (U : VUni) (originalPos : V3) : V3O :=
  if U.uZoom = 0 then none3
  else
    let r := IterateFractal (navPos2D U originalPos) U.uMode U
    (some r.1, some r.2.1, r.2.2)

/-- The attract/repel displacements (part_000 lines 254-264): `dHand`
is computed once, before the attraction moves the particle. -/
noncomputable def handForces (U : VUni) (p : V3) : V3O :=
  let dHand := len3 (sub3 p U.uHandPos)
  let q : Option V3 :=
    if 0 < U.uAttractStrength ∧ dHand < 4 then
      match glslNormalize (sub3 U.uHandPos p) with
      | some dir =>
        some (add3 p (smul3 ((1 - smoothstep 0 4 dHand) * U.uAttractStrength * 2) dir))
      | none => none
    else some p
  match q with
  | some p2 =>
    if 0 < U.uRepelStrength ∧ dHand < 6 then
      match glslNormalize (sub3 p2 U.uHandPos) with
      | some dir =>
        pure3 (add3 p2 (smul3 ((1 - smoothstep 0 6 dHand) * U.uRepelStrength * 3) dir))
      | none => none3
    else pure3 p2
  | none => none3

/-- The interaction displacement pipeline (part_000 lines 238-267),
active only in interactive mode: chaos jitter, explosion, snap ripple,
hand forces, then the uniform pinch scale. -/
noncomputable def applyInteractions (U : VUni) (originalPos aRandom : V3)
    (tp0 : V3O) : V3O :=
  if U.uVisualMode < 0.5 then
    let tp1 :=
      if 0.05 < U.uChaos then
        let x1 := o2 (fun x y => x + Real.sin (y * 20 + U.uTime * 50) * U.uChaos * 0.5)
          tp0.1 tp0.2.1
        let y1 := o2 (fun y z => y + Real.cos (z * 20 + U.uTime * 50) * U.uChaos * 0.5)
          tp0.2.1 tp0.2.2
        let z1 := o2 (fun z x => z + Real.sin (x * 20 + U.uTime * 50) * U.uChaos * 0.5)
          tp0.2.2 x1
        (x1, y1, z1)
      else tp0
    let tp2 :=
      if 0.05 < U.uExplosion then
        match glslNormalize (add3 originalPos (0.001, 0.001, 0.001)) with
        | some dir =>
          add3O tp1 (pure3 (smul3 (U.uExplosion * 30 * (0.5 + aRandom.1)) dir))
        | none => none3
      else tp1
    let tp3 :=
      if 0.05 < U.uSnap then
        match glslNormalize originalPos with
        | some nrm =>
          add3O tp2 (pure3 (smul3
            (Real.sin (len3 originalPos * 10 - U.uTime * 20) * U.uSnap * 0.8) nrm))
        | none => none3
      else tp2
    let tp4 := v3oCase tp3 (handForces U)
    smul3Os (1 + U.uPinchScale * 0.3) tp4
  else tp0

structure VOut where
  pos : V3O
  color : V3O
  alpha : ℝ

/-- The vertex kernel `main()` of part_000 (lines 185-303), as a
function of the uniforms, the particle seed `position` and its random
attribute; `pos` is the displaced particle position fed to the
model-view transform, `color`/`alpha` the varyings. -/
noncomputable def vertexMain (U : VUni) (position aRandom : V3) : VOut :=
  let mode := U.uMode
  let fr : V3O :=
    if 0.5 ≤ mode ∧ mode ≤ 4.5 then fractal2D U position else pure3 (0, 0, 0)
  let pos2D : V3O :=
    if 0.5 ≤ mode ∧ mode ≤ 4.5 then
      let zDepth : RO :=
        if oLt fr.2.2 0.05 then some (-20) else fr.2.2.map (· * 0.5)
      (some (position.1 * 4), some (position.2.1 * 3), zDepth.map (· * 3))
    else pure3 (0, 0, 0)
  let tp0 := if mode < 0.5 ∨ 4.5 < mode then pos3DCalc U position else pos2D
  let tp := applyInteractions U position aRandom tp0
  let t : RO :=
    if mode < 0.5 ∨ 4.5 < mode then
      (len3O tp).map fun l => l * 0.2 + U.uTime * 0.1
    else fr.2.2.map fun fz => fz + U.uTime * 0.05 + aRandom.1 * 0.2
  let color : V3O :=
    match t with
    | some tv => pure3 (getPalette U.uTime U.uVisualMode tv U.uColorMode)
    | none => none3
  if 0.5 < U.uVisualMode then
    { pos := tp
      color := color
      alpha := if oLt fr.2.2 0.05 ∧ 0.5 ≤ mode ∧ mode ≤ 4.5 then 0 else 0.8 }
  else
    { pos := tp
      color := mix3O (mix3O (mix3O (mix3O (pure3 (0, 0, 0.02)) color 0.6)
        (pure3 (0.6, 0.5, 0.8)) U.uExplosion)
        (pure3 (0.4, 0, 0.2)) U.uChaos)
        (pure3 (0.5, 0.3, 0.9)) U.uSnap
      alpha := 0.4 + U.uExplosion * 0.4 + U.uSnap * 0.4 }

/-- Uniforms of the counterexample run: Mandelbrot mode, the default
interactive-material constants of part_002, a 100-iteration cap, power
8, unit zoom, visual mode. -/
noncomputable def U1cx : VUni :=
  { uTime := 0, uMode := 2, uHandPos := (100, 100, 100),
    uAttractStrength := 0, uRepelStrength := 0, uPower := 8,
    uJuliaC := (0.355, 0.355), uPinchScale := 0, uExplosion := 0,
    uChaos := 0, uSnap := 0, uMaxIter := 100, uVisualMode := 1,
    uColorMode := 0, uZoom := 1, uPan := (0, 0) }

/-- Uniforms of the C8 witness run: Mandelbrot mode with a cap of 20. -/
noncomputable def U8w : VUni :=
  { uTime := 0, uMode := 2, uHandPos := (100, 100, 100),
    uAttractStrength := 0, uRepelStrength := 0, uPower := 8,
    uJuliaC := (0.355, 0.355), uPinchScale := 0, uExplosion := 0,
    uChaos := 0, uSnap := 0, uMaxIter := 20, uVisualMode := 1,
    uColorMode := 0, uZoom := 1, uPan := (0, 0) }

/-! ### Per-frame control loop (src/unnamed/part_001, `animate`, lines 330-527)

`FrameState` bundles the mutable state the loop reads and writes: the
navigation record (`navRef`), the physics record (`physicsRef`), the
material uniforms, the interaction sub-mode ref, and the closure
variables `currentModeVal`, `evolutionTime`, `targetMode`, `animPhase`.
The clap toggle goes through React state and reaches the ref only after
the frame, so the navigation logic of the same frame still reads the
mode captured at the top of `animate` — modelled by passing the captured
mode into `navAct` while the toggle lands in the returned state. -/

inductive IMode where
  | OBJECT_ORBIT
  | IMMERSIVE_FLY
  deriving DecidableEq, Inhabited

inductive FracMode where
  | MANDELBULB_3D
  | JULIA_2D
  | MANDELBROT
  | TRICORN
  | BURNING_SHIP
  | MENGER_SPONGE
  | SIERPINSKI
  deriving DecidableEq, Inhabited

inductive Anim where
  | NONE
  | MANDELBROT_DIVE
  | JULIA_MORPH
  | UNIVERSE_TOUR
  | GEOMETRIC_PATTERNS
  | COLOR_SYMPHONY
  | INFINITY_ZOOM
  deriving DecidableEq, Inhabited

structure Props where
  mode : FracMode
  attractionSensitivity : ℝ
  pinchSensitivity : ℝ
  morphSpeed : ℝ
  iterations : ℝ
  power : ℝ
  interactiveMode : Bool
  activeAnimation : Anim
  colorMode : ℝ
  deriving Inhabited

structure Nav where
  zoom : ℝ
  panX : ℝ
  panY : ℝ
  deriving Inhabited

structure Uni where
  uTime : ℝ
  uMode : ℝ
  uJuliaCX : ℝ
  uJuliaCY : ℝ
  uPower : ℝ
  uMaxIter : ℝ
  uZoom : ℝ
  uPanX : ℝ
  uPanY : ℝ
  uColorMode : ℝ
  uHandPosX : ℝ
  uHandPosY : ℝ
  uHandPosZ : ℝ
  uAttractStrength : ℝ
  uRepelStrength : ℝ
  deriving Inhabited

structure FrameState where
  nav : Nav
  phys : Phys
  uni : Uni
  interaction : IMode
  currentModeVal : ℝ
  evolutionTime : ℝ
  targetMode : ℝ
  animPhase : ℝ
  deriving Inhabited

/-- JavaScript `%` (truncating remainder) on the reals. -/
noncomputable def jsRem (a b : ℝ) : ℝ :=
  a - b * (if 0 ≤ a / b then (⌊a / b⌋ : ℝ) else -((⌊-(a / b)⌋ : ℝ)))

def toggleIM : IMode → IMode
  | IMode.OBJECT_ORBIT => IMode.IMMERSIVE_FLY
  | IMode.IMMERSIVE_FLY => IMode.OBJECT_ORBIT

/-- Clap → toggle interaction mode, 1 s cooldown, then the conditional
decrement (part_001 lines 365-371). -/
noncomputable def clapAct (g : Gest) (dt : ℝ) (s : FrameState) : FrameState :=
  let s1 := if g.isClapping ∧ s.phys.clapCooldown ≤ 0 then
      { s with interaction := toggleIM s.interaction,
               phys := { s.phys with clapCooldown := 1 } }
    else s
  if 0 < s1.phys.clapCooldown then
    { s1 with phys := { s1.phys with clapCooldown := s1.phys.clapCooldown - dt } }
  else s1

/-- Snap → advance the palette id mod 5, 0.5 s cooldown, then the
conditional decrement (part_001 lines 374-379). -/
noncomputable def snapAct (g : Gest) (dt : ℝ) (s : FrameState) : FrameState :=
  let s1 := if g.isSnapping ∧ s.phys.snapCooldown ≤ 0 then
      { s with uni := { s.uni with uColorMode := jsRem (s.uni.uColorMode + 1) 5 },
               phys := { s.phys with snapCooldown := 0.5 } }
    else s
  if 0 < s1.phys.snapCooldown then
    { s1 with phys := { s1.phys with snapCooldown := s1.phys.snapCooldown - dt } }
  else s1

/-- Punch → rapid zoom pulse (part_001 line 383). -/
noncomputable def punchAct (g : Gest) (dt : ℝ) (s : FrameState) : FrameState :=
  if g.isPunching then
    { s with nav := { s.nav with zoom := punchZoom s.nav.zoom dt } }
  else s

/-- Two-hand smash → reset navigation and set a massive repel
(part_001 lines 388-393). -/
noncomputable def smashAct (g : Gest) (s : FrameState) : FrameState :=
  if g.isTwoHandSmash then
    { s with nav := { s.nav with zoom := 1, panX := 0, panY := 0 },
             uni := { s.uni with uRepelStrength := 5 } }
  else s

/-- Victory → freeze time by counteracting the time add
(part_001 lines 396-399). -/
noncomputable def victoryAct (g : Gest) (dt : ℝ) (s : FrameState) : FrameState :=
  if g.isVictory then { s with evolutionTime := s.evolutionTime - dt } else s

/-- Update of the previous-gesture haptic flags (part_001 lines 407-410). -/
noncomputable def hapticsUpd (g : Gest) (s : FrameState) : FrameState :=
  { s with phys := { s.phys with
                     wasFist := g.isFist, wasPunching := g.isPunching,
                     wasVictory := g.isVictory, wasSmash := g.isTwoHandSmash } }

/-- Navigation logic (part_001 lines 413-440), driven by the interaction
mode captured at the top of the frame. -/
noncomputable def navAct (m0 : IMode) (g : Gest) (dt : ℝ) (s : FrameState) : FrameState :=
  if m0 = IMode.OBJECT_ORBIT then
    if g.isFist then
      { s with nav := { s.nav with
          panX := s.nav.panX + (g.indexTipX - s.phys.lastHandPosX) * 2.5,
          panY := s.nav.panY - (g.indexTipY - s.phys.lastHandPosY) * 2.5 } }
    else if g.isPinching then
      { s with nav := { s.nav with
          zoom := pinchZoom s.nav.zoom g.indexTipY s.phys.lastHandPosY } }
    else s
  else
    if g.isFist then
      { s with nav := { s.nav with zoom := flyThrottle s.nav.zoom dt } }
    else if g.isPalmOpen then
      { s with nav := { s.nav with
          panX := s.nav.panX + (g.indexTipX * 0.8) * dt,
          panY := s.nav.panY + (g.indexTipY * 0.8) * dt } }
    else s

/-- `phys.lastHandPos.set(...)` (part_001 line 442). -/
noncomputable def lastHandUpd (g : Gest) (s : FrameState) : FrameState :=
  { s with phys := { s.phys with
                     lastHandPosX := g.indexTipX,
                     lastHandPosY := g.indexTipY, lastHandPosZ := g.indexTipZ } }

/-- The gesture-driven state machine block, run when the renderer is
interactive and at least one hand is tracked (part_001 lines 362-447). -/
noncomputable def gestureMachine (g : Gest) (dt : ℝ) (s : FrameState) : FrameState :=
  lastHandUpd g (navAct s.interaction g dt (hapticsUpd g (victoryAct g dt
    (smashAct g (punchAct g dt (snapAct g dt (clapAct g dt s)))))))

def modeIndex : FracMode → ℝ
  | FracMode.JULIA_2D => 1
  | FracMode.MANDELBROT => 2
  | FracMode.TRICORN => 3
  | FracMode.BURNING_SHIP => 4
  | FracMode.MANDELBULB_3D => 0
  | FracMode.MENGER_SPONGE => 5
  | FracMode.SIERPINSKI => 6

/-- The animation-preset block (part_001 lines 449-467). -/
noncomputable def presetBlock (p : Props) (dt : ℝ) (s : FrameState) : FrameState :=
  let phase := s.animPhase + dt
  let s1 :=
    if p.activeAnimation = Anim.MANDELBROT_DIVE then
      { s with animPhase := phase, targetMode := 2,
               nav := { s.nav with
                        zoom := diveZoom phase,
                        panX := -0.74364388703, panY := 0.13182590421 } }
    else if p.activeAnimation = Anim.JULIA_MORPH then
      { s with animPhase := phase, targetMode := 1,
               uni := { s.uni with
                        uJuliaCX := Real.cos (phase * 0.5) * 0.7885,
                        uJuliaCY := Real.sin (phase * 0.3) * 0.7885 } }
    else
      { s with animPhase := phase,
               targetMode := jsRem ((⌊phase / 5⌋ : ℤ) : ℝ) 7 }
  { s1 with uni := { s1.uni with
                     uZoom := s1.nav.zoom,
                     uPanX := lerp s1.uni.uPanX s1.nav.panX 0.1,
                     uPanY := lerp s1.uni.uPanY s1.nav.panY 0.1 } }

/-- The manual-updates block (part_001 lines 469-509). -/
noncomputable def manualBlock (p : Props) (g : Gest) (dt : ℝ) (s : FrameState) : FrameState :=
  let s1 := { s with targetMode := modeIndex p.mode }
  let s2 := if ¬ p.interactiveMode then
      { s1 with uni := { s1.uni with
          uMaxIter := if p.iterations = 0 then 100 else p.iterations } }
    else s1
  let s3 := { s2 with uni := { s2.uni with
      uPower := if p.power = 0 then 8 else p.power } }
  let s4 := { s3 with uni := { s3.uni with
      uZoom := damp s3.uni.uZoom s3.nav.zoom 10 dt,
      uPanX := lerp s3.uni.uPanX s3.nav.panX (1 - Real.exp (-10 * dt)),
      uPanY := lerp s3.uni.uPanY s3.nav.panY (1 - Real.exp (-10 * dt)) } }
  if p.interactiveMode ∧ g.handsCount > 0 then
    { s4 with uni := { s4.uni with
        uHandPosX := g.indexTipX, uHandPosY := g.indexTipY, uHandPosZ := 0,
        uAttractStrength := damp s4.uni.uAttractStrength
          ((forceTier g).1 * p.attractionSensitivity) 8 dt,
        uRepelStrength := damp s4.uni.uRepelStrength
          ((forceTier g).2 * p.attractionSensitivity) 8 dt } }
  else s4

/-- Shared frame tail (part_001 lines 511-514): advance evolution time,
damp the blended mode, publish both. -/
noncomputable def finishFrame (dt : ℝ) (s : FrameState) : FrameState :=
  let evo := s.evolutionTime + dt * 0.2
  let cm := damp s.currentModeVal s.targetMode 5 dt
  { s with evolutionTime := evo, currentModeVal := cm,
           uni := { s.uni with uTime := evo, uMode := cm } }

/-- One full frame of the `animate` loop of part_001 (lines 361-514),
omitting only the resize handling and the render calls. -/
noncomputable def frameStep (p : Props) (g : Gest) (dt : ℝ) (s : FrameState) : FrameState :=
  let s1 := if p.interactiveMode ∧ g.handsCount > 0 then gestureMachine g dt s
    else { s with phys := { s.phys with wasFist := false, wasPunching := false } }
  let s2 := if p.activeAnimation ≠ Anim.NONE then presetBlock p dt s1
    else manualBlock p g dt s1
  finishFrame dt s2

/-- The fields of the frame state that the gesture machine never writes:
its phase/mode bookkeeping and the published pan uniform. -/
def frameInvP (s t : FrameState) : Prop :=
  t.animPhase = s.animPhase ∧ t.currentModeVal = s.currentModeVal ∧
  t.uni.uPanX = s.uni.uPanX ∧ t.uni.uPanY = s.uni.uPanY

/-- Initial gesture record of part_001 (lines 108-124). -/
noncomputable def g0 : Gest :=
  { indexTipX := 0, indexTipY := 0, indexTipZ := 0,
    wristPosX := 0, wristPosY := 0, wristPosZ := 0,
    isPinching := false, isPalmOpen := false, isFist := false,
    isPointing := false, isVictory := false, isSnapping := false,
    isWaving := false, isClapping := false, isPunching := false,
    isTwoHandSmash := false, handsDistance := 100, handsCount := 0,
    gestureName := "Searching..." }

/-- A one-hand frame that is snapping and nothing else. -/
noncomputable def gSnap : Gest := { g0 with handsCount := 1, isSnapping := true }

/-- A frame with no tracked hands. -/
noncomputable def gNoHands : Gest := g0

/-- Initial physics record of part_001 (lines 127-138). -/
noncomputable def phys0 : Phys :=
  { prevWristZ := 0, punchVelocity := 0, clapCooldown := 0, snapCooldown := 0,
    lastHandPosX := 0, lastHandPosY := 0, lastHandPosZ := 0,
    wasFist := false, wasPunching := false, wasVictory := false, wasSmash := false }

/-- Initial loop state of part_001: zoom 1, everything else at its
initialization value. -/
noncomputable def s4cx : FrameState :=
  { nav := { zoom := 1, panX := 0, panY := 0 },
    phys := phys0,
    uni := { uTime := 0, uMode := 0, uJuliaCX := -0.7, uJuliaCY := 0.27015,
             uPower := 8, uMaxIter := 100, uZoom := 1, uPanX := 0, uPanY := 0,
             uColorMode := 0, uHandPosX := 100, uHandPosY := 100, uHandPosZ := 100,
             uAttractStrength := 0, uRepelStrength := 0 },
    interaction := IMode.OBJECT_ORBIT, currentModeVal := 0,
    evolutionTime := 0, targetMode := 0, animPhase := 0 }

/-- Props with the MANDELBROT_DIVE preset active in interactive mode. -/
noncomputable def p4cx : Props :=
  { mode := FracMode.MANDELBROT, attractionSensitivity := 1,
    pinchSensitivity := 1, morphSpeed := 1, iterations := 100, power := 8,
    interactiveMode := true, activeAnimation := Anim.MANDELBROT_DIVE,
    colorMode := 0 }

/-! ### Theorems -/

theorem clapFrame_eq_ticks (durT : ℤ) (clapping : Bool) (cdT : ℤ) :
    clapFrame ((durT : ℚ) / 60) clapping ((cdT : ℚ) / 60) (1/60) =
      ((clapFrameTicks durT clapping cdT).1,
        ((clapFrameTicks durT clapping cdT).2 : ℚ) / 60) := by
  have h60 : (0:ℚ) < 60 := by norm_num
  have hle : ((cdT : ℚ) / 60 ≤ 0) ↔ (cdT ≤ 0) := by
    rw [div_le_iff₀ h60]
    simp
  have hltd : (0 < (durT : ℚ) / 60) ↔ (0 < durT) := by
    rw [lt_div_iff₀ h60]
    simp
  have hltc : (0 < (cdT : ℚ) / 60) ↔ (0 < cdT) := by
    rw [lt_div_iff₀ h60]
    simp
  by_cases hcl : clapping = true
  · by_cases hc0 : cdT ≤ 0
    · by_cases hd : 0 < durT
      · simp [clapFrame, clapFrameTicks, hle, hltd, hcl, hc0, hd]
        ring
      · simp [clapFrame, clapFrameTicks, hle, hltd, hcl, hc0, hd]
    · by_cases hd : 0 < cdT
      · simp [clapFrame, clapFrameTicks, hle, hltc, hcl, hc0, hd]
        ring
      · simp [clapFrame, clapFrameTicks, hle, hltc, hcl, hc0, hd]
  · by_cases hd : 0 < cdT
    · simp [clapFrame, clapFrameTicks, hle, hltc, hcl, hd]
      ring
    · simp [clapFrame, clapFrameTicks, hle, hltc, hcl, hd]

theorem clapSim_eq_ticks (durT : ℤ) : ∀ n : ℕ,
    (clapSim ((durT : ℚ) / 60) n).1 = (clapSimTicks durT n).1 ∧
    (clapSim ((durT : ℚ) / 60) n).2 = ((clapSimTicks durT n).2 : ℚ) / 60 := by
  intro n
  induction n with
  | zero => exact ⟨rfl, by norm_num [clapSim, clapSimTicks]⟩
  | succ n ih =>
    have step := clapFrame_eq_ticks durT true (clapSimTicks durT n).2
    simp only [clapSim, clapSimTicks, ih.1, ih.2, step]
    exact ⟨trivial, trivial⟩


set_option maxRecDepth 40000 in
/-- C5: with the clap boolean held true across 1000 simulated frames at
dt = 1/60 s, the clap action fires exactly
`floor(total_time / cooldown_duration) + 1` times — 17 times for the
1.0 s cooldown of part_001 and 21 times for the 0.8 s cooldown of
FractalVis.tsx — and in particular not once per frame. -/
theorem C5_theorem :
    (clapSim 1 1000).1 = 17 ∧
    (17 : ℤ) = ⌊(1000 * ((1:ℚ)/60)) / 1⌋ + 1 ∧
    (clapSim (8/10) 1000).1 = 21 ∧
    (21 : ℤ) = ⌊(1000 * ((1:ℚ)/60)) / (8/10)⌋ + 1 := by
  have h1 : (clapSim 1 1000).1 = (clapSimTicks 60 1000).1 := by
    rw [show (1:ℚ) = ((60:ℤ):ℚ)/60 by norm_num]
    exact (clapSim_eq_ticks 60 1000).1
  have h2 : (clapSim (8/10) 1000).1 = (clapSimTicks 48 1000).1 := by
    rw [show (8/10:ℚ) = ((48:ℤ):ℚ)/60 by norm_num]
    exact (clapSim_eq_ticks 48 1000).1
  refine ⟨?_, ?_, ?_, ?_⟩
  · rw [h1]
    decide
  · have : ⌊(1000 * ((1:ℚ)/60)) / 1⌋ = 16 := by
      rw [Int.floor_eq_iff]
      norm_num
    rw [this]
    norm_num
  · rw [h2]
    decide
  · have : ⌊(1000 * ((1:ℚ)/60)) / (8/10)⌋ = 20 := by
      rw [Int.floor_eq_iff]
      norm_num
    rw [this]
    norm_num

/-- Closed form of the iterated damp update, with no side conditions. -/
theorem dampSteps_closed (target lambda : ℝ) :
    ∀ (ds : List ℝ) (x0 : ℝ),
    dampSteps target lambda x0 ds =
      target * (1 - Real.exp (-lambda * ds.sum)) +
        x0 * Real.exp (-lambda * ds.sum) := by
  intro ds
  induction ds with
  | nil => intro x0; simp [dampSteps]
  | cons d ds ih =>
    intro x0
    have h1 : dampSteps target lambda x0 (d :: ds) =
        dampSteps target lambda (damp x0 target lambda d) ds := rfl
    rw [h1, ih (damp x0 target lambda d), List.sum_cons]
    have hsplit : -lambda * (d + ds.sum) = -lambda * d + -lambda * ds.sum := by ring
    rw [hsplit, Real.exp_add, damp, lerp]
    ring

/-- C6: the exponential damping update is step-granularity independent:
iterating `damp` over any list of positive steps `ds` starting from `x0`
lands exactly at `target·(1 − e^{−λ·t}) + x0·e^{−λ·t}` where `t` is the
total elapsed time `ds.sum` — the same value as a single step of size
`t`. -/
theorem C6_theorem (target lambda x0 : ℝ) (ds : List ℝ)
    (_hl : 0 < lambda) (_hpos : ∀ d ∈ ds, 0 < d) :
    dampSteps target lambda x0 ds =
      target * (1 - Real.exp (-lambda * ds.sum)) +
        x0 * Real.exp (-lambda * ds.sum) :=
  dampSteps_closed target lambda ds x0

/-- C6 witness: two half-steps of size 1 with λ = 1 from 0 toward 1 land
exactly at `1 − e^{−2}`. -/
theorem C6_witness :
    ((0:ℝ) < 1 ∧ ∀ d ∈ [(1:ℝ), 1], 0 < d) ∧
    dampSteps 1 1 0 [1, 1] =
      1 * (1 - Real.exp (-1 * ([(1:ℝ), 1]).sum)) +
        0 * Real.exp (-1 * ([(1:ℝ), 1]).sum) := by
  have hpos : ∀ d ∈ [(1:ℝ), 1], 0 < d := by
    intro d hd
    simp only [List.mem_cons, List.not_mem_nil, or_false] at hd
    rcases hd with h | h <;> rw [h] <;> norm_num
  exact ⟨⟨by norm_num, hpos⟩, C6_theorem 1 1 0 [1, 1] (by norm_num) hpos⟩

/-- C2 counterexample: from the in-range zoom 1, a gesture pinch-zoom
with the fingertip one unit below its previous position multiplies the
zoom by a negative factor, violating strict positivity; and the
MANDELBROT_DIVE preset drives the zoom past every bound (here past
100000 at phase 30). -/
theorem C2_counterexample :
    zoomInv 1 ∧ pinchZoom 1 0 1 = -(1/2) ∧
    ¬ zoomInv (pinchZoom 1 0 1) ∧ ¬ zoomInv (diveZoom 30) := by
  have hp : pinchZoom 1 0 1 = -(1/2) := by norm_num [pinchZoom]
  have hd : (100000:ℝ) < diveZoom 30 := by
    rw [diveZoom, show (30:ℝ) = ((30:ℕ):ℝ) by norm_num, Real.rpow_natCast]
    norm_num
  refine ⟨⟨by norm_num, by norm_num⟩, hp, ?_, ?_⟩
  · rw [hp]
    rintro ⟨h1, -⟩
    norm_num at h1
  · rintro ⟨-, h2⟩
    linarith

/-- C2 (amended): wheel zoom preserves the positive-and-bounded zoom
invariant (its commit is guarded by `0.0001 < z' < 100000`); the punch
zoom pulse, the immersive-fly fist throttle and the dive preset preserve
strict positivity (for a non-negative frame dt) but are not bounded; the
gesture pinch-zoom update is unclamped and does not preserve the
invariant (see the counterexample). -/
theorem C2_theorem :
    (∀ z d, zoomInv z → zoomInv (handleWheel z d)) ∧
    (∀ z dt, 0 < z → 0 ≤ dt → 0 < punchZoom z dt) ∧
    (∀ z dt, 0 < z → 0 ≤ dt → 0 < flyThrottle z dt) ∧
    (∀ phase, 0 < diveZoom phase) := by
  refine ⟨?_, ?_, ?_, ?_⟩
  · intro z d hz
    simp only [handleWheel]
    split_ifs with h
    · exact ⟨by linarith [h.1], h.2⟩
    · exact hz
  · intro z dt hz hdt
    simp only [punchZoom]
    nlinarith
  · intro z dt hz hdt
    simp only [flyThrottle]
    nlinarith
  · intro phase
    exact Real.rpow_pos_of_pos (by norm_num) phase

/-- C2 witness: the theorem instantiated at zoom 1 and dt = 1/60. -/
theorem C2_witness :
    (zoomInv 1 ∧ zoomInv (handleWheel 1 1)) ∧
    ((0:ℝ) < 1 ∧ (0:ℝ) ≤ 1/60 ∧ 0 < punchZoom 1 (1/60) ∧
      0 < flyThrottle 1 (1/60)) ∧
    0 < diveZoom 0 := by
  have hinv : zoomInv 1 := ⟨by norm_num, by norm_num⟩
  exact ⟨⟨hinv, C2_theorem.1 1 1 hinv⟩,
    ⟨by norm_num, by norm_num,
      C2_theorem.2.1 1 (1/60) (by norm_num) (by norm_num),
      C2_theorem.2.2.1 1 (1/60) (by norm_num) (by norm_num)⟩,
    C2_theorem.2.2.2 0⟩

theorem mix_mem (a b s : ℝ) (ha : inUnit a) (hb : inUnit b) (hs : inUnit s) :
    inUnit (mix a b s) := by
  obtain ⟨ha0, ha1⟩ := ha
  obtain ⟨hb0, hb1⟩ := hb
  obtain ⟨hs0, hs1⟩ := hs
  simp only [mix, inUnit]
  constructor
  · nlinarith
  · nlinarith

theorem mix3_mem (a b : V3) (s : ℝ) (ha : inUnit3 a) (hb : inUnit3 b)
    (hs : inUnit s) : inUnit3 (mix3 a b s) :=
  ⟨mix_mem _ _ _ ha.1 hb.1 hs, mix_mem _ _ _ ha.2.1 hb.2.1 hs,
    mix_mem _ _ _ ha.2.2 hb.2.2 hs⟩

theorem palettePulse_mem (uT uV t : ℝ) : inUnit (palettePulse uT uV t) := by
  unfold palettePulse
  split_ifs
  · constructor
    · nlinarith [Real.neg_one_le_sin (t * 3)]
    · nlinarith [Real.sin_le_one (t * 3)]
  · constructor
    · nlinarith [Real.neg_one_le_sin (t * 3 + uT * 0.1)]
    · nlinarith [Real.sin_le_one (t * 3 + uT * 0.1)]

theorem pow_mem01 (x : ℝ) (n : ℕ) (hx : inUnit x) : inUnit (x ^ n) :=
  ⟨pow_nonneg hx.1 n, pow_le_one₀ hx.1 hx.2⟩

theorem mul_mem01 (x w : ℝ) (hx : inUnit x) (hw : inUnit w) : inUnit (x * w) := by
  obtain ⟨hx0, hx1⟩ := hx
  obtain ⟨hw0, hw1⟩ := hw
  exact ⟨mul_nonneg hx0 hw0, by nlinarith⟩

/-- C3 counterexample: the palette is not a function of (t, id) alone —
the pulse reads the `uTime` uniform in interactive mode, so the same
`(t, id) = (0, 1)` yields different colors at time 0 and at time 5π. -/
theorem C3_counterexample :
    (getPalette 0 0 0 1).1 ≠ (getPalette (5 * Real.pi) 0 0 1).1 := by
  have hp1 : palettePulse 0 0 0 = 1/2 := by
    norm_num [palettePulse, Real.sin_zero]
  have hs : Real.sin ((0:ℝ) * 3 + 5 * Real.pi * 0.1) = 1 := by
    rw [show ((0:ℝ) * 3 + 5 * Real.pi * 0.1 : ℝ) = Real.pi / 2 by ring]
    exact Real.sin_pi_div_two
  have hp2 : palettePulse (5 * Real.pi) 0 0 = 1 := by
    rw [palettePulse, if_neg (by norm_num : ¬ (0.5:ℝ) < 0), hs]
    norm_num
  have h1 : (getPalette 0 0 0 1).1 = mix (mix 0.1 0.6 (1/2)) 1 ((1/2) ^ 3) := by
    rw [getPalette]
    rw [if_neg (by norm_num : ¬ (1:ℝ) < 0.5), if_pos (by norm_num : (1:ℝ) < 1.5)]
    rw [hp1]
    rfl
  have h2 : (getPalette (5 * Real.pi) 0 0 1).1 = mix (mix 0.1 0.6 1) 1 (1 ^ 3) := by
    rw [getPalette]
    rw [if_neg (by norm_num : ¬ (1:ℝ) < 0.5), if_pos (by norm_num : (1:ℝ) < 1.5)]
    rw [hp2]
    rfl
  rw [h1, h2]
  norm_num [mix]

/-- All three palette channels lie in [0,1] for any inputs. -/
theorem getPalette_mem (uT uV t mode : ℝ) : inUnit3 (getPalette uT uV t mode) := by
  have hp := palettePulse_mem uT uV t
  rw [getPalette]
  split_ifs
  · exact mix3_mem _ _ _
      (mix3_mem _ _ _ (by norm_num [inUnit3, inUnit]) (by norm_num [inUnit3, inUnit]) hp)
      (by norm_num [inUnit3, inUnit])
      (mul_mem01 _ _ (pow_mem01 _ _ hp) (by norm_num [inUnit]))
  · exact mix3_mem _ _ _
      (mix3_mem _ _ _ (by norm_num [inUnit3, inUnit]) (by norm_num [inUnit3, inUnit]) hp)
      (by norm_num [inUnit3, inUnit])
      (pow_mem01 _ _ hp)
  · exact mix3_mem _ _ _
      (mix3_mem _ _ _ (by norm_num [inUnit3, inUnit]) (by norm_num [inUnit3, inUnit]) hp)
      (by norm_num [inUnit3, inUnit])
      (mul_mem01 _ _ (pow_mem01 _ _ hp) (by norm_num [inUnit]))
  · exact mix3_mem _ _ _
      (mix3_mem _ _ _ (by norm_num [inUnit3, inUnit]) (by norm_num [inUnit3, inUnit]) hp)
      (by norm_num [inUnit3, inUnit])
      (mul_mem01 _ _ (pow_mem01 _ _ hp) (by norm_num [inUnit]))
  · exact mix3_mem _ _ _
      (mix3_mem _ _ _ (by norm_num [inUnit3, inUnit]) (by norm_num [inUnit3, inUnit]) hp)
      (by norm_num [inUnit3, inUnit])
      (mul_mem01 _ _ (pow_mem01 _ _ hp) (by norm_num [inUnit]))

/-- C3 (amended): the palette is deterministic in (t, id) together with
the time and visual-mode uniforms it reads; when the visual-mode flag is
set the pulse ignores `uTime`, so the color is a pure function of
(t, id); and for every real t, id, time and mode flag all three output
channels lie in [0,1]. -/
theorem C3_theorem :
    (∀ uT uT' uV uV' t mode, 0.5 < uV → 0.5 < uV' →
      getPalette uT uV t mode = getPalette uT' uV' t mode) ∧
    (∀ uT uV t mode, inUnit3 (getPalette uT uV t mode)) := by
  constructor
  · intro uT uT' uV uV' t mode hV hV'
    have hp : palettePulse uT uV t = palettePulse uT' uV' t := by
      rw [palettePulse, palettePulse, if_pos hV, if_pos hV']
    rw [getPalette, getPalette, hp]
  · exact getPalette_mem

/-- C3 witness: the theorem instantiated at concrete uniforms — the
visual-mode palette at times 0 and 7 agrees, and the interactive palette
at (t, id) = (0, 1) is channel-bounded. -/
theorem C3_witness :
    ((0.5:ℝ) < 1 ∧ getPalette 0 1 0 1 = getPalette 7 1 0 1) ∧
    inUnit3 (getPalette 0 0 0 1) :=
  ⟨⟨by norm_num, C3_theorem.1 0 7 1 1 0 1 (by norm_num) (by norm_num)⟩,
    C3_theorem.2 0 0 0 1⟩

/-- C7: with two hands present whose mean fingertip-to-wrist distances
both classify as fists and whose wrist-to-wrist distance is below 0.15,
the classifier sets `isTwoHandSmash`, and the force-tier selection of
that frame picks the strongest repulsion tier (repel = 10) regardless of
the individual pinch/palm classifications. -/
theorem C7_theorem (h1 h2 : Hand) (g : Gest) (ph : Phys)
    (hf1 : avgTipDist h1 < 0.25)
    (hf2 : (dist (h2 8) (h2 0) + dist (h2 12) (h2 0) + dist (h2 16) (h2 0) +
      dist (h2 20) (h2 0)) / 4 < 0.25)
    (hd : dist (h1 0) (h2 0) < 0.15) :
    (onResults [h1, h2] g ph).1.isTwoHandSmash = true ∧
    forceTier (onResults [h1, h2] g ph).1 = (0, 10) := by
  have hsm : (onResults [h1, h2] g ph).1.isTwoHandSmash = true := by
    simp only [onResults]
    simp [hf1, hf2, hd]
  exact ⟨hsm, by rw [forceTier, if_pos hsm]⟩

/-- C7 witness: two concrete all-fist hands with wrist distance 0.05. -/
theorem C7_witness :
    (avgTipDist wHand1 < 0.25 ∧
      (dist (wHand2 8) (wHand2 0) + dist (wHand2 12) (wHand2 0) +
        dist (wHand2 16) (wHand2 0) + dist (wHand2 20) (wHand2 0)) / 4 < 0.25 ∧
      dist (wHand1 0) (wHand2 0) < 0.15) ∧
    (onResults [wHand1, wHand2] default default).1.isTwoHandSmash = true ∧
    forceTier (onResults [wHand1, wHand2] default default).1 = (0, 10) := by
  have hz : dist (⟨0.3, 0.5, 0⟩ : Landmark) ⟨0.3, 0.5, 0⟩ = 0 := by
    simp [dist]
  have hz2 : dist (⟨0.35, 0.5, 0⟩ : Landmark) ⟨0.35, 0.5, 0⟩ = 0 := by
    simp [dist]
  have hf1 : avgTipDist wHand1 < 0.25 := by
    simp only [avgTipDist, wHand1, hz]
    norm_num
  have hf2 : (dist (wHand2 8) (wHand2 0) + dist (wHand2 12) (wHand2 0) +
      dist (wHand2 16) (wHand2 0) + dist (wHand2 20) (wHand2 0)) / 4 < 0.25 := by
    simp only [wHand2, hz2]
    norm_num
  have hd : dist (wHand1 0) (wHand2 0) < 0.15 := by
    simp only [wHand1, wHand2, dist]
    rw [show ((0.3:ℝ) - 0.35) ^ 2 + ((0.5:ℝ) - 0.5) ^ 2 = 0.05 ^ 2 by norm_num]
    rw [Real.sqrt_sq (by norm_num : (0.05:ℝ) ≥ 0)]
    norm_num
  exact ⟨⟨hf1, hf2, hd⟩, C7_theorem wHand1 wHand2 default default hf1 hf2 hd⟩

/-- C9: a tracking callback that reports zero hands leaves every
GestureState field other than the hands count and the display label
unchanged, in both the part_001 classifier and the FractalVis.tsx one;
the physics state is untouched. -/
theorem C9_theorem : ∀ (g : Gest) (ph : Phys),
    onResults [] g ph =
      ({ g with handsCount := 0, gestureName := "NO HANDS" }, ph) ∧
    onResultsTsx [] g = { g with handsCount := 0, gestureName := "NO HANDS" } :=
  fun _ _ => ⟨rfl, rfl⟩

/-- C10: after a callback with exactly one hand, the two-hand gesture
booleans are false: part_001 clears `isClapping` and `isTwoHandSmash`
before the two-hand branch, and the part_002 clap check returns false
for a single hand — a two-hand gesture never survives a one-hand frame. -/
theorem C10_theorem : ∀ (g : Gest) (ph : Phys) (h : Hand),
    (onResults [h] g ph).1.isClapping = false ∧
    (onResults [h] g ph).1.isTwoHandSmash = false ∧
    clapCheck002 [h] = false :=
  fun _ _ _ => ⟨rfl, rfl, rfl⟩

/-- One unfolding of the escape loop. -/
theorem escLoop_succ (stepF : ℝ × ℝ → ℝ × ℝ) (limit : ℝ) (fuel i : ℕ)
    (z : ℝ × ℝ) (iter : ℝ) :
    escLoop stepF limit (fuel + 1) i z iter =
      if (i : ℝ) < limit then
        if 4 < dotSq (stepF z) then (stepF z, iter)
        else escLoop stepF limit fuel (i + 1) (stepF z) (iter + 1)
      else (z, iter) := rfl

/-- If the orbit first exceeds the escape radius at pass `n`, and `n` is
within both the fuel and the configured limit, the loop returns that
iterate together with an iteration count of `n`. -/
theorem escLoop_escape (stepF : ℝ × ℝ → ℝ × ℝ) (limit : ℝ) :
    ∀ (n fuel i : ℕ) (z : ℝ × ℝ) (iter : ℝ),
    n < fuel →
    ((i + n : ℕ) : ℝ) < limit →
    (∀ k < n, dotSq (stepF^[k + 1] z) ≤ 4) →
    4 < dotSq (stepF^[n + 1] z) →
    escLoop stepF limit fuel i z iter = (stepF^[n + 1] z, iter + n) := by
  intro n
  induction n with
  | zero =>
    intro fuel i z iter hfuel hlim hpre hesc
    match fuel, hfuel with
    | fuel + 1, _ =>
      have hi : (i : ℝ) < limit := by
        have : ((i + 0 : ℕ) : ℝ) = (i : ℝ) := by push_cast; ring
        rwa [this] at hlim
      simp only [escLoop]
      rw [if_pos hi, if_pos (by simpa [Function.iterate_one] using hesc)]
      simp [Function.iterate_one]
  | succ n ih =>
    intro fuel i z iter hfuel hlim hpre hesc
    match fuel, hfuel with
    | fuel + 1, hfuel =>
      have hi : (i : ℝ) < limit := by
        have hle : (i : ℝ) ≤ ((i + (n + 1) : ℕ) : ℝ) := by
          push_cast
          linarith [Nat.cast_nonneg (α := ℝ) n]
        linarith
      have hne : ¬ 4 < dotSq (stepF z) := by
        have h0 := hpre 0 (Nat.succ_pos n)
        simpa [Function.iterate_one] using not_lt.mpr h0
      simp only [escLoop]
      rw [if_pos hi, if_neg hne]
      have hrec := ih fuel (i + 1) (stepF z) (iter + 1) (Nat.lt_of_succ_lt_succ hfuel)
        (by
          have : ((i + 1 + n : ℕ) : ℝ) = ((i + (n + 1) : ℕ) : ℝ) := by push_cast; ring
          rwa [this])
        (fun k hk => by
          have := hpre (k + 1) (Nat.succ_lt_succ hk)
          rwa [show stepF^[k + 1 + 1] z = stepF^[k + 1] (stepF z) from
            Function.iterate_succ_apply stepF (k + 1) z] at this)
        (by
          rwa [show stepF^[n + 1 + 1] z = stepF^[n + 1] (stepF z) from
            Function.iterate_succ_apply stepF (n + 1) z] at hesc)
      rw [hrec, Prod.mk.injEq]
      constructor
      · exact (Function.iterate_succ_apply stepF (n + 1) z).symm
      · push_cast
        ring

/-- C8: for every escaping point of the 2-D escape-time branch — the
orbit first exceeds `|z|² > 4` at pass `n`, within both the hard
100-pass bound and the configured cap — the kernel returns that first
escaping iterate, and its pseudo-depth is exactly
`(iter − log2(log2(|z|²)) + 4) / cap` with `iter = n` the integer escape
count and `z` the first iterate with `|z|² > 4`. -/
theorem C8_theorem (pos : ℝ × ℝ) (mode : ℝ) (U : VUni) (n : ℕ)
    (hcap : 0 < U.uMaxIter)
    (hn100 : n < 100)
    (hnlim : (n : ℝ) < U.uMaxIter)
    (hpre : ∀ k < n, dotSq (orbit2D pos mode U.uJuliaC (k + 1)) ≤ 4)
    (hesc : 4 < dotSq (orbit2D pos mode U.uJuliaC (n + 1))) :
    (IterateFractal pos mode U).1 = (orbit2D pos mode U.uJuliaC (n + 1)).1 ∧
    (IterateFractal pos mode U).2.1 = (orbit2D pos mode U.uJuliaC (n + 1)).2 ∧
    (IterateFractal pos mode U).2.2 =
      some (((n : ℝ) -
        Real.logb 2 (Real.logb 2 (dotSq (orbit2D pos mode U.uJuliaC (n + 1)))) + 4) /
          U.uMaxIter) := by
  have hlimit : loopLimitOf U.uMaxIter = U.uMaxIter := if_pos hcap
  have hloop : escLoop (iterStep mode (iterInit pos mode U.uJuliaC).2)
      (loopLimitOf U.uMaxIter) 100 0 (iterInit pos mode U.uJuliaC).1 0 =
      (orbit2D pos mode U.uJuliaC (n + 1), 0 + (n : ℝ)) := by
    refine escLoop_escape _ _ n 100 0 _ 0 hn100 ?_ hpre hesc
    rw [hlimit]
    simpa using hnlim
  have hd : (4:ℝ) < dotSq (orbit2D pos mode U.uJuliaC (n + 1)) := hesc
  have hlog1 : glslLog2 (dotSq (orbit2D pos mode U.uJuliaC (n + 1))) =
      some (Real.logb 2 (dotSq (orbit2D pos mode U.uJuliaC (n + 1)))) :=
    if_pos (by linarith)
  have hlog2 : glslLog2 (Real.logb 2 (dotSq (orbit2D pos mode U.uJuliaC (n + 1)))) =
      some (Real.logb 2 (Real.logb 2 (dotSq (orbit2D pos mode U.uJuliaC (n + 1))))) :=
    if_pos (Real.logb_pos (by norm_num) (by linarith))
  rw [hlimit] at hloop
  refine ⟨?_, ?_, ?_⟩
  · simp only [IterateFractal, hlimit, hloop]
  · simp only [IterateFractal, hlimit, hloop]
  · simp only [IterateFractal, hlimit, hloop, hlog1, Option.some_bind, hlog2,
      Option.map_some']
    norm_num

/-- C8 witness: in Mandelbrot mode with cap 20, the seed point c = (3,0)
escapes on the very first pass (|z₁|² = 9 > 4) and the theorem gives its
pseudo-depth. -/
theorem C8_witness :
    (0 < U8w.uMaxIter ∧ (0:ℕ) < 100 ∧ ((0:ℕ):ℝ) < U8w.uMaxIter ∧
      (∀ k < 0, dotSq (orbit2D (3, 0) 2 U8w.uJuliaC (k + 1)) ≤ 4) ∧
      4 < dotSq (orbit2D (3, 0) 2 U8w.uJuliaC (0 + 1))) ∧
    (IterateFractal (3, 0) 2 U8w).2.2 =
      some ((((0:ℕ) : ℝ) -
        Real.logb 2 (Real.logb 2 (dotSq (orbit2D (3, 0) 2 U8w.uJuliaC (0 + 1)))) + 4) /
          U8w.uMaxIter) := by
  have hesc : 4 < dotSq (orbit2D (3, 0) 2 U8w.uJuliaC (0 + 1)) := by
    have hinit : iterInit (3, 0) 2 U8w.uJuliaC = ((0, 0), (3, 0)) := by
      rw [iterInit, if_neg]
      norm_num [U8w]
    rw [orbit2D, hinit]
    norm_num [iterStep, csqr, cadd, dotSq]
  have hpre : ∀ k < 0, dotSq (orbit2D (3, 0) 2 U8w.uJuliaC (k + 1)) ≤ 4 :=
    fun k hk => absurd hk (Nat.not_lt_zero k)
  exact ⟨⟨by norm_num [U8w], by norm_num, by norm_num [U8w], hpre, hesc⟩,
    (C8_theorem (3, 0) 2 U8w 0 (by norm_num [U8w]) (by norm_num)
      (by norm_num [U8w]) hpre hesc).2.2⟩

/-- The Mandelbrot orbit of c = 0 stays at the origin: the escape loop
never breaks and returns z = (0,0). -/
theorem escLoop_const_zero (limit : ℝ) :
    ∀ (fuel i : ℕ) (iter : ℝ),
    (escLoop (iterStep 2 (0, 0)) limit fuel i (0, 0) iter).1 = (0, 0) := by
  have hstep : iterStep 2 (0, 0) (0, 0) = (0, 0) := by
    norm_num [iterStep, csqr, cadd]
  intro fuel
  induction fuel with
  | zero => intro i iter; rfl
  | succ m ih =>
    intro i iter
    simp only [escLoop, hstep]
    split_ifs with hi he
    · exfalso
      norm_num [dotSq] at he
    · exact ih (i + 1) (iter + 1)
    · rfl

/-- C1 counterexample: with parameters inside the claimed ranges — mode
2 (Mandelbrot, in [0,6]), cap 100 (in [10,500]), power 8 (in [2,16]),
unit zoom, zero pan — the seed (0, 0, 0.3) maps to c = 0, whose orbit
never escapes; the smoothed iteration count evaluates
`log2(log2(0))`, which is not a finite real, and the kernel's output
z-coordinate is non-finite (`none`), refuting the claim that every seed
and parameter combination yields a finite position. -/
theorem C1_counterexample :
    (vertexMain U1cx (0, 0, 0.3) (0.1, 0.2, 0.3)).pos.2.2 = none := by
  have hm : U1cx.uMode = 2 := rfl
  have hnav : navPos2D U1cx (0, 0, 0.3) = (0, 0) := by
    norm_num [navPos2D, U1cx]
  have hinit : iterInit (0, 0) 2 U1cx.uJuliaC = ((0, 0), (0, 0)) := by
    rw [iterInit, if_neg]
    norm_num [U1cx]
  have hIF : (IterateFractal (navPos2D U1cx (0, 0, 0.3)) U1cx.uMode U1cx).2.2 = none := by
    rw [hnav, hm]
    simp only [IterateFractal, hinit]
    rw [escLoop_const_zero (loopLimitOf U1cx.uMaxIter) 100 0 0]
    simp [glslLog2, dotSq]
  have hfr : (fractal2D U1cx (0, 0, 0.3)).2.2 = none := by
    rw [fractal2D, if_neg (by norm_num [U1cx] : ¬ U1cx.uZoom = 0)]
    exact hIF
  have h2d : 0.5 ≤ U1cx.uMode ∧ U1cx.uMode ≤ 4.5 := by norm_num [U1cx]
  have hn3d : ¬ (U1cx.uMode < 0.5 ∨ 4.5 < U1cx.uMode) := by
    push_neg
    exact h2d
  have hnvis : ¬ U1cx.uVisualMode < 0.5 := by norm_num [U1cx]
  have hvis : (0.5:ℝ) < U1cx.uVisualMode := by norm_num [U1cx]
  simp only [vertexMain, applyInteractions, if_pos h2d, if_neg hn3d, if_neg hnvis,
    if_pos hvis]
  simp [oLt, hfr]

/-- An escaped final iterate makes the pseudo-depth a finite real. -/
theorem IterateFractal_esc_some (pos : ℝ × ℝ) (mode : ℝ) (U : VUni)
    (h : 4 < dotSq ((IterateFractal pos mode U).1, (IterateFractal pos mode U).2.1)) :
    ∃ s, (IterateFractal pos mode U).2.2 = some s := by
  have hpair : ((IterateFractal pos mode U).1, (IterateFractal pos mode U).2.1) =
      (escLoop (iterStep mode (iterInit pos mode U.uJuliaC).2) (loopLimitOf U.uMaxIter)
        100 0 (iterInit pos mode U.uJuliaC).1 0).1 := rfl
  rw [hpair] at h
  have h1 : glslLog2 (dotSq (escLoop (iterStep mode (iterInit pos mode U.uJuliaC).2)
      (loopLimitOf U.uMaxIter) 100 0 (iterInit pos mode U.uJuliaC).1 0).1) =
      some (Real.logb 2 (dotSq (escLoop (iterStep mode (iterInit pos mode U.uJuliaC).2)
        (loopLimitOf U.uMaxIter) 100 0 (iterInit pos mode U.uJuliaC).1 0).1)) :=
    if_pos (by linarith)
  have h2 : glslLog2 (Real.logb 2 (dotSq (escLoop (iterStep mode (iterInit pos mode U.uJuliaC).2)
      (loopLimitOf U.uMaxIter) 100 0 (iterInit pos mode U.uJuliaC).1 0).1)) =
      some (Real.logb 2 (Real.logb 2 (dotSq (escLoop (iterStep mode (iterInit pos mode U.uJuliaC).2)
        (loopLimitOf U.uMaxIter) 100 0 (iterInit pos mode U.uJuliaC).1 0).1))) :=
    if_pos (Real.logb_pos (by norm_num) (by linarith))
  exact ⟨((escLoop (iterStep mode (iterInit pos mode U.uJuliaC).2) (loopLimitOf U.uMaxIter)
      100 0 (iterInit pos mode U.uJuliaC).1 0).2 -
      Real.logb 2 (Real.logb 2 (dotSq (escLoop (iterStep mode (iterInit pos mode U.uJuliaC).2)
        (loopLimitOf U.uMaxIter) 100 0 (iterInit pos mode U.uJuliaC).1 0).1)) + 4) /
      loopLimitOf U.uMaxIter, by
    simp only [IterateFractal, h1, Option.some_bind, h2, Option.map_some']⟩

/-- C1 (amended): in the 2-D escape-time range of the mode scalar
(0.5 ≤ mode ≤ 4.5), with a nonzero zoom, in visual mode, and for a seed
whose escape-time orbit does escape (the loop's final iterate has
|z|² > 4), the kernel produces a finite position, a finite color with
every channel in [0,1], and an alpha of 0 or 0.8.  For a seed whose
orbit never escapes the position is non-finite (see the
counterexample), so the original claim holds only on escaping seeds. -/
theorem C1_theorem (U : VUni) (position aRandom : V3)
    (h1 : 0.5 ≤ U.uMode) (h2 : U.uMode ≤ 4.5)
    (hz : U.uZoom ≠ 0) (hvis : 0.5 < U.uVisualMode)
    (hesc : 4 < dotSq ((IterateFractal (navPos2D U position) U.uMode U).1,
      (IterateFractal (navPos2D U position) U.uMode U).2.1)) :
    (∃ p : V3, (vertexMain U position aRandom).pos = pure3 p) ∧
    (∃ c : V3, (vertexMain U position aRandom).color = pure3 c ∧ inUnit3 c) ∧
    ((vertexMain U position aRandom).alpha = 0 ∨
      (vertexMain U position aRandom).alpha = 0.8) := by
  obtain ⟨s, hs⟩ := IterateFractal_esc_some (navPos2D U position) U.uMode U hesc
  have h2d : 0.5 ≤ U.uMode ∧ U.uMode ≤ 4.5 := ⟨h1, h2⟩
  have hn3d : ¬ (U.uMode < 0.5 ∨ 4.5 < U.uMode) := by
    push_neg
    exact h2d
  have hnvis : ¬ U.uVisualMode < 0.5 := by linarith
  have hfr : fractal2D U position =
      (some (IterateFractal (navPos2D U position) U.uMode U).1,
        some (IterateFractal (navPos2D U position) U.uMode U).2.1, some s) := by
    simp only [fractal2D, if_neg hz, hs]
  have hmain : vertexMain U position aRandom =
      { pos := (some (position.1 * 4), some (position.2.1 * 3),
          (if oLt (some s) 0.05 then some (-20:ℝ) else some (s * 0.5)).map (· * 3))
        color := pure3 (getPalette U.uTime U.uVisualMode
          (s + U.uTime * 0.05 + aRandom.1 * 0.2) U.uColorMode)
        alpha := if oLt (some s) 0.05 ∧ 0.5 ≤ U.uMode ∧ U.uMode ≤ 4.5 then 0
          else 0.8 } := by
    simp only [vertexMain, applyInteractions, if_pos h2d, if_neg hn3d, if_neg hnvis,
      if_pos hvis, hfr, Option.map_some']
  refine ⟨?_, ?_, ?_⟩
  · by_cases hlt : oLt (some s) 0.05
    · exact ⟨(position.1 * 4, position.2.1 * 3, (-20) * 3),
        by rw [hmain, if_pos hlt]; rfl⟩
    · exact ⟨(position.1 * 4, position.2.1 * 3, s * 0.5 * 3),
        by rw [hmain, if_neg hlt]; rfl⟩
  · exact ⟨getPalette U.uTime U.uVisualMode
      (s + U.uTime * 0.05 + aRandom.1 * 0.2) U.uColorMode,
      by rw [hmain], getPalette_mem _ _ _ _⟩
  · by_cases ha : oLt (some s) 0.05 ∧ 0.5 ≤ U.uMode ∧ U.uMode ≤ 4.5
    · left
      rw [hmain]
      exact if_pos ha
    · right
      rw [hmain]
      exact if_neg ha

/-- C1 witness: the amended theorem at the concrete uniforms `U8w`
(Mandelbrot, cap 20, unit zoom, visual mode) and the seed (1.5, 0, 0),
whose mapped point c = (3, 0) escapes on the first pass. -/
theorem C1_witness :
    ((0.5:ℝ) ≤ U8w.uMode ∧ U8w.uMode ≤ 4.5 ∧ U8w.uZoom ≠ 0 ∧
      (0.5:ℝ) < U8w.uVisualMode ∧
      4 < dotSq ((IterateFractal (navPos2D U8w (1.5, 0, 0)) U8w.uMode U8w).1,
        (IterateFractal (navPos2D U8w (1.5, 0, 0)) U8w.uMode U8w).2.1)) ∧
    (∃ p : V3, (vertexMain U8w (1.5, 0, 0) (0.1, 0.2, 0.3)).pos = pure3 p) ∧
    (∃ c : V3, (vertexMain U8w (1.5, 0, 0) (0.1, 0.2, 0.3)).color = pure3 c ∧
      inUnit3 c) := by
  have hnav : navPos2D U8w (1.5, 0, 0) = (3, 0) := by
    norm_num [navPos2D, U8w]
  have hinit : iterInit (3, 0) U8w.uMode U8w.uJuliaC = ((0, 0), (3, 0)) := by
    rw [show U8w.uMode = 2 from rfl, iterInit, if_neg]
    norm_num [U8w]
  have hloop : escLoop (iterStep U8w.uMode (3, 0)) (loopLimitOf U8w.uMaxIter)
      100 0 (0, 0) 0 = ((3, 0), 0) := by
    rw [show (100:ℕ) = 99 + 1 from rfl, escLoop_succ]
    rw [if_pos (by norm_num [loopLimitOf, U8w] : ((0:ℕ):ℝ) < loopLimitOf U8w.uMaxIter)]
    rw [show iterStep U8w.uMode (3, 0) (0, 0) = (3, 0) by
      rw [show U8w.uMode = 2 from rfl]
      norm_num [iterStep, csqr, cadd]]
    rw [if_pos (by norm_num [dotSq] : (4:ℝ) < dotSq (3, 0))]
  have hesc : 4 < dotSq ((IterateFractal (navPos2D U8w (1.5, 0, 0)) U8w.uMode U8w).1,
      (IterateFractal (navPos2D U8w (1.5, 0, 0)) U8w.uMode U8w).2.1) := by
    have hpair : ((IterateFractal (navPos2D U8w (1.5, 0, 0)) U8w.uMode U8w).1,
        (IterateFractal (navPos2D U8w (1.5, 0, 0)) U8w.uMode U8w).2.1) =
        (escLoop (iterStep U8w.uMode (iterInit (navPos2D U8w (1.5, 0, 0)) U8w.uMode U8w.uJuliaC).2)
          (loopLimitOf U8w.uMaxIter) 100 0
          (iterInit (navPos2D U8w (1.5, 0, 0)) U8w.uMode U8w.uJuliaC).1 0).1 := rfl
    rw [hpair, hnav, hinit]
    rw [hloop]
    norm_num [dotSq]
  have hc := C1_theorem U8w (1.5, 0, 0) (0.1, 0.2, 0.3)
    (by norm_num [U8w]) (by norm_num [U8w]) (by norm_num [U8w])
    (by norm_num [U8w]) hesc
  exact ⟨⟨by norm_num [U8w], by norm_num [U8w], by norm_num [U8w],
    by norm_num [U8w], hesc⟩, hc.1, hc.2.1⟩

theorem frameInvP_trans {a b c : FrameState} (h1 : frameInvP a b)
    (h2 : frameInvP b c) : frameInvP a c :=
  ⟨h2.1.trans h1.1, h2.2.1.trans h1.2.1, h2.2.2.1.trans h1.2.2.1,
    h2.2.2.2.trans h1.2.2.2⟩

theorem clapAct_inv (g : Gest) (dt : ℝ) (s : FrameState) :
    frameInvP s (clapAct g dt s) := by
  simp only [frameInvP, clapAct]
  split_ifs <;> exact ⟨rfl, rfl, rfl, rfl⟩

theorem snapAct_inv (g : Gest) (dt : ℝ) (s : FrameState) :
    frameInvP s (snapAct g dt s) := by
  simp only [frameInvP, snapAct]
  split_ifs <;> exact ⟨rfl, rfl, rfl, rfl⟩

theorem punchAct_inv (g : Gest) (dt : ℝ) (s : FrameState) :
    frameInvP s (punchAct g dt s) := by
  simp only [frameInvP, punchAct]
  split_ifs <;> exact ⟨rfl, rfl, rfl, rfl⟩

theorem smashAct_inv (g : Gest) (s : FrameState) :
    frameInvP s (smashAct g s) := by
  simp only [frameInvP, smashAct]
  split_ifs <;> exact ⟨rfl, rfl, rfl, rfl⟩

theorem victoryAct_inv (g : Gest) (dt : ℝ) (s : FrameState) :
    frameInvP s (victoryAct g dt s) := by
  simp only [frameInvP, victoryAct]
  split_ifs <;> exact ⟨rfl, rfl, rfl, rfl⟩

theorem hapticsUpd_inv (g : Gest) (s : FrameState) :
    frameInvP s (hapticsUpd g s) :=
  ⟨rfl, rfl, rfl, rfl⟩

theorem navAct_inv (m : IMode) (g : Gest) (dt : ℝ) (s : FrameState) :
    frameInvP s (navAct m g dt s) := by
  simp only [frameInvP, navAct]
  split_ifs <;> exact ⟨rfl, rfl, rfl, rfl⟩

theorem lastHandUpd_inv (g : Gest) (s : FrameState) :
    frameInvP s (lastHandUpd g s) :=
  ⟨rfl, rfl, rfl, rfl⟩

/-- The gesture machine never writes the phase/mode bookkeeping or the
published pan uniform. -/
theorem gestureMachine_inv (g : Gest) (dt : ℝ) (s : FrameState) :
    frameInvP s (gestureMachine g dt s) := by
  rw [gestureMachine]
  exact frameInvP_trans (clapAct_inv g dt s) (frameInvP_trans (snapAct_inv g dt _)
    (frameInvP_trans (punchAct_inv g dt _) (frameInvP_trans (smashAct_inv g _)
      (frameInvP_trans (victoryAct_inv g dt _) (frameInvP_trans (hapticsUpd_inv g _)
        (frameInvP_trans (navAct_inv s.interaction g dt _) (lastHandUpd_inv g _)))))))

/-- C4 (amended): while the MANDELBROT_DIVE preset is active the
preset-driven published parameters — zoom, pan, and the blended mode —
are independent of the gesture input: two frames differing only in
their GestureState publish the same uZoom, uPan and uMode.  The full
published record is not gesture-independent: the gesture machine still
runs during presets, so the palette id, the repel uniform, the
interaction sub-mode and the time uniform can still differ (see the
counterexample). -/
theorem C4_theorem (p : Props) (g1 g2 : Gest) (dt : ℝ) (s : FrameState)
    (hp : p.activeAnimation = Anim.MANDELBROT_DIVE) :
    (frameStep p g1 dt s).uni.uZoom = (frameStep p g2 dt s).uni.uZoom ∧
    (frameStep p g1 dt s).uni.uPanX = (frameStep p g2 dt s).uni.uPanX ∧
    (frameStep p g1 dt s).uni.uPanY = (frameStep p g2 dt s).uni.uPanY ∧
    (frameStep p g1 dt s).uni.uMode = (frameStep p g2 dt s).uni.uMode := by
  have hne : p.activeAnimation ≠ Anim.NONE := by
    rw [hp]
    decide
  have key : ∀ g : Gest,
      (frameStep p g dt s).uni.uZoom = diveZoom (s.animPhase + dt) ∧
      (frameStep p g dt s).uni.uPanX = lerp s.uni.uPanX (-0.74364388703) 0.1 ∧
      (frameStep p g dt s).uni.uPanY = lerp s.uni.uPanY 0.13182590421 0.1 ∧
      (frameStep p g dt s).uni.uMode = damp s.currentModeVal 2 5 dt := by
    intro g
    have hs1 : frameInvP s (if p.interactiveMode ∧ g.handsCount > 0
        then gestureMachine g dt s
        else { s with phys := { s.phys with wasFist := false, wasPunching := false } }) := by
      split_ifs with h
      · exact gestureMachine_inv g dt s
      · exact ⟨rfl, rfl, rfl, rfl⟩
    simp only [frameStep, presetBlock, finishFrame, if_pos hne, if_pos hp]
    exact ⟨by rw [hs1.1], by rw [hs1.2.2.1], by rw [hs1.2.2.2], by rw [hs1.2.1]⟩
  exact ⟨((key g1).1).trans ((key g2).1).symm,
    ((key g1).2.1).trans ((key g2).2.1).symm,
    ((key g1).2.2.1).trans ((key g2).2.2.1).symm,
    ((key g1).2.2.2).trans ((key g2).2.2.2).symm⟩

/-- C4 counterexample: from the initial loop state with the
MANDELBROT_DIVE preset active in interactive mode, a one-hand snapping
gesture frame advances the published palette id to 1 while a no-hands
frame leaves it at 0 — the per-frame state update is not independent of
GestureState while a preset is active. -/
theorem C4_counterexample :
    (frameStep p4cx gSnap (1/60) s4cx).uni.uColorMode = 1 ∧
    (frameStep p4cx gNoHands (1/60) s4cx).uni.uColorMode = 0 := by
  have hAnim : Anim.MANDELBROT_DIVE ≠ Anim.NONE := by decide
  have hjs : jsRem (1:ℝ) 5 = 1 := by
    rw [jsRem]
    rw [if_pos (by norm_num : (0:ℝ) ≤ (1:ℝ) / 5)]
    rw [show ⌊(1:ℝ) / 5⌋ = 0 by
      rw [Int.floor_eq_zero_iff]
      constructor <;> norm_num]
    norm_num
  constructor
  · norm_num [frameStep, gestureMachine, clapAct, snapAct, punchAct, smashAct,
      victoryAct, hapticsUpd, navAct, lastHandUpd, presetBlock, finishFrame,
      p4cx, gSnap, g0, s4cx, phys0, hjs, hAnim]
  · norm_num [frameStep, presetBlock, finishFrame, p4cx, gNoHands, g0, s4cx,
      phys0, hAnim]

/-- C4 witness: the amended theorem at the concrete dive preset, the
initial loop state, and the two gesture frames of the counterexample. -/
theorem C4_witness :
    p4cx.activeAnimation = Anim.MANDELBROT_DIVE ∧
    (frameStep p4cx gNoHands (1/60) s4cx).uni.uZoom =
      (frameStep p4cx gSnap (1/60) s4cx).uni.uZoom ∧
    (frameStep p4cx gNoHands (1/60) s4cx).uni.uMode =
      (frameStep p4cx gSnap (1/60) s4cx).uni.uMode :=
  ⟨rfl, (C4_theorem p4cx gNoHands gSnap (1/60) s4cx rfl).1,
    (C4_theorem p4cx gNoHands gSnap (1/60) s4cx rfl).2.2.2⟩

end AM
